import Mathlib

/-!
Verification of the lmapi messaging backend (lifercode/lmapi).

This file shallowly embeds the data model and the request handlers the
claims are about:

* the mongoose schemas `User`, `Company`, `Agent`, `Contact`, `Thread`,
  `Message` (`src/models/*.ts`);
* the JWT utilities `generateToken` / `verifyToken` (`src/utils/jwt.ts`)
  and the `authenticateToken` middleware (`src/middleware/auth.ts`);
* the user controller (`createUser`, `login` in
  `src/controllers/user-controller.ts`);
* the company controller (`getCompanyById`, `updateCompany`,
  `deleteCompany` in `src/controllers/company-controller.ts`);
* the agent controller (`createAgent`, `getAgents` in
  `src/controllers/agent-controller.ts`);
* the message controller (`sendMessageToAgent` in
  `src/controllers/message-controller.ts`), split into its three inner
  steps (contact resolution, thread resolution, message writing) exactly
  as the source function is organised.

The MongoDB collections are modelled as insertion-ordered lists;
`findOne` is first-match (`List.find?`), `findOne().sort(createdAt:-1)`
is newest-first match, `findOneAndDelete` removes the first match.
Document ids are `Nat`, timestamps are milliseconds since the epoch
(`Nat`), matching JavaScript `Date.now()`.  Database writes are modelled
as always succeeding; zod string-normalisation (`.trim()`,
`.toLowerCase()`) is identity on already-normalised inputs and is left
out, as no claim depends on it.
-/

namespace Lmapi

/-! ## Data model (src/models) -/

/-- Thread origin enum (`ThreadOrigin` in src/models/Thread.ts). -/
inductive Origin
  | whatsapp
  | instagram
  | website
  | tiktok
  | messenger
  deriving Repr, DecidableEq

/-- Message role enum (src/models/Message.ts). -/
inductive Role
  | user
  | assistant
  deriving Repr, DecidableEq

/-- A `User` document.  The schema in src/models/User.ts declares exactly
the paths `name` and `email` (plus timestamps); in particular it declares
no `password` path and registers no instance methods. -/
structure User where
  id : Nat
  name : String
  email : String
  deriving Repr, DecidableEq

/-- A notification channel entry of a company (src/models/Company.ts). -/
structure Notification where
  provider : String
  value : Option String
  enabled : Bool
  deriving Repr, DecidableEq

/-- A `Company` document (src/models/Company.ts). -/
structure Company where
  id : Nat
  name : String
  notifications : List Notification
  brandLogoUrl : String
  brandColor : String
  userId : Nat
  deriving Repr, DecidableEq

/-- An `Agent` document (src/models/Agent.ts). -/
structure Agent where
  id : Nat
  name : String
  description : String
  companyId : Nat
  deriving Repr, DecidableEq

/-- A `Contact` document (src/models/Contact.ts).  `name`, `email` and
`phone` are all optional and default to null; the unique indexes on
`email` and `phone` are commented out in the schema, so duplicates are
not prevented by the store. -/
structure Contact where
  id : Nat
  name : Option String
  email : Option String
  phone : Option String
  createdAt : Nat
  deriving Repr, DecidableEq

/-- A `Thread` document (src/models/Thread.ts). -/
structure Thread where
  id : Nat
  contactId : Nat
  agentId : Nat
  name : String
  origin : Origin
  createdAt : Nat
  deriving Repr, DecidableEq

/-- A `Message` document (src/models/Message.ts). -/
structure Message where
  id : Nat
  threadId : Nat
  role : Role
  content : String
  createdAt : Nat
  deriving Repr, DecidableEq

/-- The document store: one insertion-ordered list per collection, plus a
counter supplying fresh ids. -/
structure DB where
  users : List User
  companies : List Company
  agents : List Agent
  contacts : List Contact
  threads : List Thread
  messages : List Message
  nextId : Nat
  deriving Repr, DecidableEq

/-- An empty store. -/
def DB.empty : DB := ⟨[], [], [], [], [], [], 1⟩

/-! ## Token service (src/utils/jwt.ts)

`generateToken` signs `{userId, email}` with `env.JWT_SECRET` and a fixed
7-day expiry; `verifyToken` recomputes the signature and checks expiry.
A token is modelled as either structurally malformed or a signed triple
(payload, issued-at, signing secret); a signature check succeeds exactly
when the secret used to sign equals the verifier's secret. -/

/-- JWT payload (`JwtPayload` in src/utils/jwt.ts). -/
structure JwtPayload where
  userId : Nat
  email : String
  deriving Repr, DecidableEq

/-- A bearer token as seen by `jsonwebtoken`: either not a decodable JWT
at all, or a payload signed at time `iat` under secret `sig`. -/
inductive Token
  | malformed
  | signed (payload : JwtPayload) (iat : Nat) (sig : Nat)
  deriving Repr, DecidableEq

/-- Seven days in milliseconds: the `expiresIn: '7d'` option of
`jwt.sign`. -/
def sevenDaysMs : Nat := 7 * 24 * 60 * 60 * 1000

/-- `generateToken` (src/utils/jwt.ts): sign the payload now, under the
process-wide secret, expiring 7 days from issuance. -/
def generateToken (secret now : Nat) (payload : JwtPayload) : Token :=
  .signed payload now secret

/-- `verifyToken` (src/utils/jwt.ts): `jwt.verify` fails (throws) on a
malformed token, a signature mismatch, or an expired token; otherwise it
returns the payload.  `none` models the throw. -/
def verifyToken (secret now : Nat) : Token → Option JwtPayload
  | .malformed => none
  | .signed payload iat sig =>
    if sig ≠ secret then none
    else if iat + sevenDaysMs < now then none
    else some payload

/-! ## Access guard (src/middleware/auth.ts) -/

/-- Outcome of the `authenticateToken` middleware.  The source writes
401 for a missing token, 403 (message 'Invalid or expired token') from
the catch block entered when `verifyToken` throws, 401 when the subject
user no longer exists, and otherwise attaches the identity and calls
`next()`. -/
inductive AuthResult
  | missingToken
  | invalidToken
  | userGone
  | authenticated (id : Nat) (email name : String)
  deriving Repr, DecidableEq

/-- HTTP status written by `authenticateToken` for each outcome; `none`
when the middleware proceeds without writing a response. -/
def authHttpStatus : AuthResult → Option Nat
  | .missingToken => some 401
  | .invalidToken => some 403
  | .userGone => some 401
  | .authenticated _ _ _ => none

/-- The `authenticateToken` middleware (src/middleware/auth.ts).
`auth = none` models a request whose Authorization header yields no
bearer token. -/
def authenticateToken (db : DB) (secret now : Nat) (auth : Option Token) :
    AuthResult :=
  match auth with
  | none => .missingToken
  | some t =>
    match verifyToken secret now t with
    | none => .invalidToken
    | some payload =>
      match db.users.find? (fun u => u.id == payload.userId) with
      | none => .userGone
      | some u => .authenticated u.id u.email u.name

/-! ## User controller (src/controllers/user-controller.ts) -/

/-- Registration request body. -/
structure RegisterReq where
  name : String
  email : String
  password : String
  deriving Repr, DecidableEq

/-- The `createUserSchema` zod checks on lengths (name 2..50, password
6..100).  The `.email()` format check and normalisation are abstracted;
the same normalisation is applied at login, so matching by email is
unaffected. -/
def registerValid (r : RegisterReq) : Bool :=
  2 ≤ r.name.length && r.name.length ≤ 50 &&
  6 ≤ r.password.length && r.password.length ≤ 100

/-- Outcome of `POST /auth/register` (`createUser`). -/
inductive RegisterResult
  | validationFailed
  | emailConflict
  | createdUser (u : User) (token : Token)
  deriving Repr, DecidableEq

/-- HTTP status of each `createUser` outcome. -/
def registerStatus : RegisterResult → Nat
  | .validationFailed => 400
  | .emailConflict => 409
  | .createdUser _ _ => 201

/-- The `createUser` handler.  `new User(validatedData)` is constructed
against the schema of src/models/User.ts, which declares only `name` and
`email`; mongoose strict mode silently drops the `password` property, so
the saved document carries no password. -/
def createUser (db : DB) (secret now : Nat) (r : RegisterReq) :
    RegisterResult × DB :=
  if registerValid r = false then (.validationFailed, db)
  else
    match db.users.find? (fun u => u.email == r.email) with
    | some _ => (.emailConflict, db)
    | none =>
      let u : User := { id := db.nextId, name := r.name, email := r.email }
      (.createdUser u (generateToken secret now ⟨u.id, u.email⟩),
       { db with users := db.users ++ [u], nextId := db.nextId + 1 })

/-- The instance methods registered on the `User` model.  The schema in
src/models/User.ts registers none, so the `comparePassword` method slot
the login handler calls is absent (`none`); calling an absent method
throws a TypeError at runtime. -/
def comparePasswordMethod : Option (User → String → Bool) := none

/-- Outcome of `POST /auth/login` (`login`). -/
inductive LoginResult
  | validationFailed
  | invalidCredentials
  | internalError
  | loggedIn (u : User) (token : Token)
  deriving Repr, DecidableEq

/-- HTTP status of each `login` outcome. -/
def loginStatus : LoginResult → Nat
  | .validationFailed => 400
  | .invalidCredentials => 401
  | .internalError => 500
  | .loggedIn _ _ => 200

/-- The `login` handler: look the user up by email (the
`.select('+password')` projection selects a path the schema does not
define), then call `user.comparePassword(password)`.  When the method
slot is absent the call throws, the catch block runs, and the response
is a 500 'Internal server error'. -/
def login (db : DB) (secret now : Nat) (email password : String) :
    LoginResult :=
  if password.length = 0 then .validationFailed
  else
    match db.users.find? (fun u => u.email == email) with
    | none => .invalidCredentials
    | some u =>
      match comparePasswordMethod with
      | none => .internalError
      | some cmp =>
        if cmp u password then
          .loggedIn u (generateToken secret now ⟨u.id, u.email⟩)
        else .invalidCredentials

/-! ## Company controller (src/controllers/company-controller.ts) -/

/-- A partial update body for `PUT /companies/:id`
(`updateCompanySchema = createCompanySchema.partial()`): each field is
applied only when present. -/
structure CompanyUpdate where
  name : Option String
  notifications : Option (List Notification)
  brandLogoUrl : Option String
  brandColor : Option String
  deriving Repr, DecidableEq

/-- Apply the present fields of an update to a company document, as
`findOneAndUpdate` does. -/
def applyCompanyUpdate (c : Company) (u : CompanyUpdate) : Company :=
  { c with
    name := u.name.getD c.name
    notifications := u.notifications.getD c.notifications
    brandLogoUrl := u.brandLogoUrl.getD c.brandLogoUrl
    brandColor := u.brandColor.getD c.brandColor }

/-- Outcome of the per-id company handlers.  `notFoundOrDenied` is the
single 404 response 'Company not found or access denied' written both
when the id does not exist and when it belongs to another user. -/
inductive CompanyResult
  | notFoundOrDenied
  | ok (c : Company)
  deriving Repr, DecidableEq

/-- HTTP status of each per-id company outcome. -/
def companyStatus : CompanyResult → Nat
  | .notFoundOrDenied => 404
  | .ok _ => 200

/-- The filter `{ _id: id, userId: userId }` used by all three per-id
company handlers. -/
def companyOwnedQuery (userId id : Nat) (c : Company) : Bool :=
  c.id == id && c.userId == userId

/-- `getCompanyById`: `Company.findOne({ _id: id, userId })`, 404 when no
document matches. -/
def getCompanyById (db : DB) (userId id : Nat) : CompanyResult :=
  match db.companies.find? (companyOwnedQuery userId id) with
  | none => .notFoundOrDenied
  | some c => .ok c

/-- Replace the first element satisfying `p` by its image under `f`,
modelling an in-place single-document update. -/
def replaceFirst (p : α → Bool) (f : α → α) : List α → List α
  | [] => []
  | x :: xs => if p x then f x :: xs else x :: replaceFirst p f xs

/-- `updateCompany`: `Company.findOneAndUpdate({ _id: id, userId },
data, { new: true })`, 404 when no document matches. -/
def updateCompany (db : DB) (userId id : Nat) (u : CompanyUpdate) :
    CompanyResult × DB :=
  match db.companies.find? (companyOwnedQuery userId id) with
  | none => (.notFoundOrDenied, db)
  | some c =>
    let upd := replaceFirst (companyOwnedQuery userId id)
      (fun x => applyCompanyUpdate x u) db.companies
    (.ok (applyCompanyUpdate c u), { db with companies := upd })

/-- `deleteCompany`: `Company.findOneAndDelete({ _id: id, userId })`, 404
when no document matches. -/
def deleteCompany (db : DB) (userId id : Nat) : CompanyResult × DB :=
  match db.companies.find? (companyOwnedQuery userId id) with
  | none => (.notFoundOrDenied, db)
  | some c =>
    (.ok c,
     { db with companies := db.companies.eraseP (companyOwnedQuery userId id) })

/-! ## Agent controller (src/controllers/agent-controller.ts) -/

/-- The `createAgentSchema` zod length checks (name 2..100, description
10..500; the ObjectId format check is subsumed by `companyId : Nat`). -/
def agentInputValid (name description : String) : Bool :=
  2 ≤ name.length && name.length ≤ 100 &&
  10 ≤ description.length && description.length ≤ 500

/-- Outcome of `POST /agents` (`createAgent`). -/
inductive CreateAgentResult
  | validationFailed
  | companyNotOwned
  | duplicateAgentName
  | agentCreated (a : Agent)
  deriving Repr, DecidableEq

/-- HTTP status of each `createAgent` outcome; `companyNotOwned` is the
403 response 'Company not found or access denied'. -/
def createAgentStatus : CreateAgentResult → Nat
  | .validationFailed => 400
  | .companyNotOwned => 403
  | .duplicateAgentName => 409
  | .agentCreated _ => 201

/-- The `createAgent` handler: validate, verify
`Company.findOne({ _id: companyId, userId })`, reject duplicates of
(name, companyId), then save.  The ownership lookup precedes every
write. -/
def createAgent (db : DB) (userId : Nat) (name description : String)
    (companyId : Nat) : CreateAgentResult × DB :=
  if agentInputValid name description = false then (.validationFailed, db)
  else
    match db.companies.find? (fun c => c.id == companyId && c.userId == userId) with
    | none => (.companyNotOwned, db)
    | some _ =>
      match db.agents.find? (fun a => a.name == name && a.companyId == companyId) with
      | some _ => (.duplicateAgentName, db)
      | none =>
        let a : Agent :=
          { id := db.nextId, name := name, description := description,
            companyId := companyId }
        (.agentCreated a,
         { db with agents := db.agents ++ [a], nextId := db.nextId + 1 })

/-- Outcome of `GET /agents` (`getAgents`). -/
inductive GetAgentsResult
  | authRequired
  | ok (agents : List Agent)
  deriving Repr, DecidableEq

/-- The `getAgents` handler.  The filter is built as
`{ companyId: companyId }` from the query string alone; the caller's id
is only read for the 401 guard and for logging.  When `companyId` is
absent, mongoose drops the undefined key from the filter, so the query
degenerates to `{}` and matches every agent.  (The `search` regex filter
and pagination narrow the same result set and are orthogonal to the
claims, so they are elided.) -/
def getAgents (db : DB) (userId : Option Nat) (companyId : Option Nat) :
    GetAgentsResult :=
  match userId with
  | none => .authRequired
  | some _ =>
    match companyId with
    | none => .ok db.agents
    | some cid => .ok (db.agents.filter (fun a => a.companyId == cid))

/-! ## Message controller: send-to-agent
(`sendMessageToAgent` in src/controllers/message-controller.ts)

The handler receives a plain `Request` (not an `AuthenticatedRequest`):
the route `POST /messages/send-to-agent` is gated by `authenticateToken`,
but the handler itself never reads the caller's identity, so none of the
functions below take a user id. -/

/-- Body of `POST /messages/send-to-agent`
(`sendMessageToAgentSchema`). -/
structure SendReq where
  content : String
  email : Option String
  phone : Option String
  origin : Origin
  agentId : Nat
  deriving Repr, DecidableEq

/-- JavaScript truthiness of an optional string field: null, undefined
and the empty string are falsy. -/
def isTruthy : Option String → Bool
  | none => false
  | some s => !(s == "")

/-- The zod checks of `sendMessageToAgentSchema`: content length 1..10000
and the refinement `origin = whatsapp ? !!phone : !!email`. -/
def sendToAgentValid (req : SendReq) : Bool :=
  1 ≤ req.content.length && req.content.length ≤ 10000 &&
  (if req.origin == .whatsapp then isTruthy req.phone else isTruthy req.email)

/-- The `contactQuery` object: a phone-only filter for whatsapp and an
email-only filter for every other origin; the other field is never added
to the query. -/
def contactMatches (req : SendReq) (c : Contact) : Bool :=
  if req.origin == .whatsapp then c.phone == req.phone else c.email == req.email

/-- The substring of an email before its first '@' — `split('@')[0]` —
or the whole string when no '@' occurs. -/
def emailLocalPart (e : String) : String :=
  String.mk (e.data.takeWhile (fun ch => ch != '@'))

/-- `validatedData.email?.split('@')[0] || '-'`: the local part of the
email, with '-' when the email is absent or that local part is empty. -/
def contactNameFromEmail : Option String → String
  | none => "-"
  | some e => if emailLocalPart e = "" then "-" else emailLocalPart e

/-- The document inserted by the contact-creation branch: for whatsapp,
name and phone from the request's phone and a null email; otherwise name
from the email's local part, email from the request and a null phone. -/
def newContactFor (db : DB) (now : Nat) (req : SendReq) : Contact :=
  if req.origin == .whatsapp then
    { id := db.nextId, name := req.phone, email := none, phone := req.phone,
      createdAt := now }
  else
    { id := db.nextId, name := some (contactNameFromEmail req.email),
      email := req.email, phone := none, createdAt := now }

/-- Contact resolution step of `sendMessageToAgent`:
`Contact.findOne(contactQuery)`, reusing the first match, otherwise
saving a new contact. -/
def findOrCreateContact (db : DB) (now : Nat) (req : SendReq) :
    Contact × DB :=
  match db.contacts.find? (contactMatches req) with
  | some c => (c, db)
  | none =>
    let c := newContactFor db now req
    (c, { db with contacts := db.contacts ++ [c], nextId := db.nextId + 1 })

/-- Twenty-four hours in milliseconds. -/
def dayMs : Nat := 24 * 60 * 60 * 1000

/-- The thread query `{ contactId, agentId, origin,
createdAt: { $gte: now - 24h } }`.  Over the integers
`createdAt ≥ now - dayMs` is `now ≤ createdAt + dayMs`, which avoids
truncated natural subtraction. -/
def threadMatches (req : SendReq) (contactId now : Nat) (t : Thread) :
    Bool :=
  t.contactId == contactId && t.agentId == req.agentId &&
  t.origin == req.origin && decide (now ≤ t.createdAt + dayMs)

/-- Pick the newer of a thread and an optional later candidate,
preferring the earlier listed thread on equal timestamps. -/
def newerOf (t : Thread) : Option Thread → Thread
  | none => t
  | some b => if t.createdAt < b.createdAt then b else t

/-- First result of `.sort({ createdAt: -1 })` over a match list: the
element with the greatest `createdAt`, the earliest listed one on ties
(stable descending sort). -/
def newestThread : List Thread → Option Thread
  | [] => none
  | t :: ts => some (newerOf t (newestThread ts))

/-- The document inserted by the thread-creation branch:
`threadName = validatedData.content`, with the resolved contact, the
requested agent and origin. -/
def newThreadFor (db : DB) (now : Nat) (req : SendReq) (contactId : Nat) :
    Thread :=
  { id := db.nextId, contactId := contactId, agentId := req.agentId,
    name := req.content, origin := req.origin, createdAt := now }

/-- Thread resolution step of `sendMessageToAgent`: newest-first lookup
of a thread on (contact, agent, origin) created within the trailing 24
hours, creating one named after the message content when none matches.
The boolean is `isNewThread`. -/
def findOrCreateThread (db : DB) (now : Nat) (req : SendReq)
    (contactId : Nat) : Thread × Bool × DB :=
  match newestThread (db.threads.filter (threadMatches req contactId now)) with
  | some t => (t, false, db)
  | none =>
    let t := newThreadFor db now req contactId
    (t, true, { db with threads := db.threads ++ [t], nextId := db.nextId + 1 })

/-- The canned assistant reply saved by `sendMessageToAgent`. -/
def assistantReply : String :=
  "Olá! Recebi sua mensagem e em breve nossa equipe entrará em contato com você."

/-- Message-writing step of `sendMessageToAgent`: save the user message
with the request content, then unconditionally save the assistant
message with the canned reply. -/
def writeMessages (db : DB) (now threadId : Nat) (content : String) :
    Message × Message × DB :=
  let um : Message :=
    { id := db.nextId, threadId := threadId, role := .user,
      content := content, createdAt := now }
  let db1 := { db with messages := db.messages ++ [um], nextId := db.nextId + 1 }
  let am : Message :=
    { id := db1.nextId, threadId := threadId, role := .assistant,
      content := assistantReply, createdAt := now }
  (um, am, { db1 with messages := db1.messages ++ [am], nextId := db1.nextId + 1 })

/-- The `userMessage` / `assistantMessage` objects of the 201 body. -/
structure MsgOut where
  id : Nat
  threadId : Nat
  role : Role
  content : String
  createdAt : Nat
  deriving Repr, DecidableEq

/-- The `thread` object of the 201 body. -/
structure ThreadOut where
  id : Nat
  name : String
  origin : Origin
  isNew : Bool
  deriving Repr, DecidableEq

/-- The `contact` object of the 201 body. -/
structure ContactOut where
  id : Nat
  email : Option String
  phone : Option String
  deriving Repr, DecidableEq

/-- Outcome of `POST /messages/send-to-agent`. -/
inductive SendOutcome
  | validationError
  | agentNotFound
  | sent (userMessage assistantMessage : MsgOut) (thread : ThreadOut)
      (contact : ContactOut)
  deriving Repr, DecidableEq

/-- HTTP status of each `sendMessageToAgent` outcome. -/
def sendStatus : SendOutcome → Nat
  | .validationError => 400
  | .agentNotFound => 404
  | .sent _ _ _ _ => 201

/-- The `sendMessageToAgent` handler: validate, check the agent exists
(`Agent.findById` — the only agent-related precondition; no ownership of
the agent's company is consulted), then chain contact resolution, thread
resolution and the two message writes, and answer 201 with both
messages, the thread (with `isNew`) and the contact. -/
def sendMessageToAgent (db : DB) (now : Nat) (req : SendReq) :
    SendOutcome × DB :=
  if sendToAgentValid req = false then (.validationError, db)
  else
    match db.agents.find? (fun a => a.id == req.agentId) with
    | none => (.agentNotFound, db)
    | some _ =>
      let contactStep := findOrCreateContact db now req
      let contact := contactStep.1
      let threadStep := findOrCreateThread contactStep.2 now req contact.id
      let thread := threadStep.1
      let isNewThread := threadStep.2.1
      let writeStep := writeMessages threadStep.2.2 now thread.id req.content
      let um := writeStep.1
      let am := writeStep.2.1
      (.sent
        ⟨um.id, um.threadId, um.role, um.content, um.createdAt⟩
        ⟨am.id, am.threadId, am.role, am.content, am.createdAt⟩
        ⟨thread.id, thread.name, thread.origin, isNewThread⟩
        ⟨contact.id, contact.email, contact.phone⟩,
       writeStep.2.2)

/-- Thread summary of a send outcome, for stating claims about the
response's `thread.isNew`. -/
def sentThread : SendOutcome → Option ThreadOut
  | .sent _ _ th _ => some th
  | _ => none

/-- Contact summary of a send outcome. -/
def sentContact : SendOutcome → Option ContactOut
  | .sent _ _ _ ct => some ct
  | _ => none

/-- Number of stored contacts whose phone equals `p`. -/
def countContactsWithPhone (db : DB) (p : Option String) : Nat :=
  (db.contacts.filter (fun c => c.phone == p)).length

/-! ## Concrete scenarios used by witnesses and counterexamples -/

/-- A thread on (contact 2, agent 1, whatsapp) created at time 0. -/
def edgeThread : Thread := ⟨3, 2, 1, "oi", .whatsapp, 0⟩

/-- A store holding one agent, one contact reachable by phone, and one
thread on (contact, agent, whatsapp) created at time 0. -/
def windowEdgeDb : DB :=
  { users := [], companies := [],
    agents := [⟨1, "Support Agent", "Handles support", 7⟩],
    contacts := [⟨2, some "5511999", none, some "5511999", 0⟩],
    threads := [⟨3, 2, 1, "oi", .whatsapp, 0⟩],
    messages := [], nextId := 4 }

/-- A store holding a single agent and nothing else. -/
def freshAgentDb : DB :=
  { users := [], companies := [],
    agents := [⟨1, "Support Agent", "Handles support", 7⟩],
    contacts := [], threads := [], messages := [], nextId := 4 }

/-- A whatsapp send-to-agent request for the agent above. -/
def waReq : SendReq := ⟨"hello there", none, some "5511999", .whatsapp, 1⟩

/-- A store whose only company is owned by user 2. -/
def otherOwnerDb : DB :=
  { DB.empty with
    companies := [⟨10, "Acme", [], "https://a.example/x.png", "#FFFFFF", 2⟩] }

/-- An update body that touches nothing. -/
def noChange : CompanyUpdate := ⟨none, none, none, none⟩

/-! ## Helper lemmas -/

theorem find?_append_of_none {p : α → Bool} {l1 l2 : List α}
    (h : l1.find? p = none) : (l1 ++ l2).find? p = l2.find? p := by
  simp [List.find?_append, h]

theorem find?_first {p : α → Bool} {l1 l2 : List α} {c : α}
    (h1 : ∀ x ∈ l1, p x = false) (hc : p c = true) :
    (l1 ++ c :: l2).find? p = some c := by
  have hn : l1.find? p = none := by
    rw [List.find?_eq_none]
    intro x hx
    simp [h1 x hx]
  rw [find?_append_of_none hn, List.find?_cons_of_pos _ hc]

theorem newestThread_eq_none {l : List Thread} :
    newestThread l = none ↔ l = [] := by
  cases l <;> simp [newestThread]

theorem newestThread_spec {l : List Thread} {t : Thread}
    (h : newestThread l = some t) :
    t ∈ l ∧ ∀ u ∈ l, u.createdAt ≤ t.createdAt := by
  induction l generalizing t with
  | nil => cases h
  | cons a as ih =>
    simp only [newestThread, Option.some.injEq] at h
    cases hts : newestThread as with
    | none =>
      have hnil : as = [] := newestThread_eq_none.mp hts
      subst hnil
      simp only [newestThread, newerOf] at h
      subst h
      simp
    | some b =>
      rw [hts] at h
      simp only [newerOf] at h
      obtain ⟨hb_mem, hb_max⟩ := ih hts
      by_cases hcmp : a.createdAt < b.createdAt
      · rw [if_pos hcmp] at h
        subst h
        refine ⟨List.mem_cons_of_mem _ hb_mem, ?_⟩
        intro u hu
        rcases List.mem_cons.mp hu with h1 | h2
        · subst h1; omega
        · exact hb_max u h2
      · rw [if_neg hcmp] at h
        subst h
        refine ⟨List.mem_cons_self _ _, ?_⟩
        intro u hu
        rcases List.mem_cons.mp hu with h1 | h2
        · subst h1; exact le_refl _
        · have := hb_max u h2; omega

theorem findOrCreateContact_found {db : DB} {now : Nat} {req : SendReq}
    {c : Contact} (h : db.contacts.find? (contactMatches req) = some c) :
    findOrCreateContact db now req = (c, db) := by
  unfold findOrCreateContact
  rw [h]

theorem findOrCreateContact_create {db : DB} {now : Nat} {req : SendReq}
    (h : db.contacts.find? (contactMatches req) = none) :
    findOrCreateContact db now req =
      (newContactFor db now req,
       { db with contacts := db.contacts ++ [newContactFor db now req],
                 nextId := db.nextId + 1 }) := by
  unfold findOrCreateContact
  rw [h]

theorem findOrCreateContact_inv {db : DB} {now : Nat} {req : SendReq}
    {c : Contact} {db' : DB}
    (h : findOrCreateContact db now req = (c, db')) :
    (db.contacts.find? (contactMatches req) = some c ∧ db' = db) ∨
    (db.contacts.find? (contactMatches req) = none ∧
      c = newContactFor db now req ∧
      db' = { db with contacts := db.contacts ++ [c], nextId := db.nextId + 1 }) := by
  cases hf : db.contacts.find? (contactMatches req) with
  | none =>
    rw [findOrCreateContact_create hf] at h
    simp only [Prod.mk.injEq] at h
    obtain ⟨h1, h2⟩ := h
    subst h1
    exact Or.inr ⟨rfl, rfl, h2.symm⟩
  | some x =>
    rw [findOrCreateContact_found hf] at h
    simp only [Prod.mk.injEq] at h
    obtain ⟨h1, h2⟩ := h
    subst h1
    exact Or.inl ⟨rfl, h2.symm⟩

theorem findOrCreateThread_found {db : DB} {now : Nat} {req : SendReq}
    {cid : Nat} {t : Thread}
    (h : newestThread (db.threads.filter (threadMatches req cid now)) = some t) :
    findOrCreateThread db now req cid = (t, false, db) := by
  unfold findOrCreateThread
  rw [h]

theorem findOrCreateThread_create {db : DB} {now : Nat} {req : SendReq}
    {cid : Nat}
    (h : newestThread (db.threads.filter (threadMatches req cid now)) = none) :
    findOrCreateThread db now req cid =
      (newThreadFor db now req cid, true,
       { db with threads := db.threads ++ [newThreadFor db now req cid],
                 nextId := db.nextId + 1 }) := by
  unfold findOrCreateThread
  rw [h]

theorem findOrCreateThread_inv {db : DB} {now : Nat} {req : SendReq}
    {cid : Nat} {t : Thread} {isNew : Bool} {db' : DB}
    (h : findOrCreateThread db now req cid = (t, isNew, db')) :
    (isNew = false ∧
      newestThread (db.threads.filter (threadMatches req cid now)) = some t ∧
      db' = db) ∨
    (isNew = true ∧
      newestThread (db.threads.filter (threadMatches req cid now)) = none ∧
      t = newThreadFor db now req cid ∧
      db' = { db with threads := db.threads ++ [t], nextId := db.nextId + 1 }) := by
  cases hf : newestThread (db.threads.filter (threadMatches req cid now)) with
  | none =>
    rw [findOrCreateThread_create hf] at h
    simp only [Prod.mk.injEq] at h
    obtain ⟨h1, h2, h3⟩ := h
    subst h1
    subst h3
    exact Or.inr ⟨h2.symm, rfl, rfl, rfl⟩
  | some x =>
    rw [findOrCreateThread_found hf] at h
    simp only [Prod.mk.injEq] at h
    obtain ⟨h1, h2, h3⟩ := h
    subst h1
    exact Or.inl ⟨h2.symm, rfl, h3.symm⟩

theorem writeMessages_spec (db : DB) (now tid : Nat) (content : String) :
    (writeMessages db now tid content).1 =
      ⟨db.nextId, tid, .user, content, now⟩ ∧
    (writeMessages db now tid content).2.1 =
      ⟨db.nextId + 1, tid, .assistant, assistantReply, now⟩ ∧
    (writeMessages db now tid content).2.2 =
      { db with
        messages := db.messages ++
          [⟨db.nextId, tid, .user, content, now⟩,
           ⟨db.nextId + 1, tid, .assistant, assistantReply, now⟩],
        nextId := db.nextId + 2 } := by
  refine ⟨rfl, rfl, ?_⟩
  simp [writeMessages]

theorem findOrCreateContact_frame {db dbA : DB} {now : Nat} {req : SendReq}
    {c : Contact} (hC : findOrCreateContact db now req = (c, dbA)) :
    dbA.users = db.users ∧ dbA.companies = db.companies ∧
    dbA.agents = db.agents ∧ dbA.threads = db.threads ∧
    dbA.messages = db.messages := by
  rcases findOrCreateContact_inv hC with ⟨-, h⟩ | ⟨-, -, h⟩ <;> subst h <;>
    exact ⟨rfl, rfl, rfl, rfl, rfl⟩

theorem findOrCreateThread_frame {db dbB : DB} {now cid : Nat} {req : SendReq}
    {t : Thread} {isNew : Bool}
    (hT : findOrCreateThread db now req cid = (t, isNew, dbB)) :
    dbB.users = db.users ∧ dbB.companies = db.companies ∧
    dbB.agents = db.agents ∧ dbB.contacts = db.contacts ∧
    dbB.messages = db.messages := by
  rcases findOrCreateThread_inv hT with ⟨-, -, h⟩ | ⟨-, -, -, h⟩ <;> subst h <;>
    exact ⟨rfl, rfl, rfl, rfl, rfl⟩

theorem send_sent_build {db : DB} {now : Nat} {req : SendReq} {a : Agent}
    {c : Contact} {dbA : DB} {t : Thread} {isNew : Bool} {dbB : DB}
    (hv : sendToAgentValid req = true)
    (hA : db.agents.find? (fun x => x.id == req.agentId) = some a)
    (hC : findOrCreateContact db now req = (c, dbA))
    (hT : findOrCreateThread dbA now req c.id = (t, isNew, dbB)) :
    sendMessageToAgent db now req =
      (.sent ⟨dbB.nextId, t.id, .user, req.content, now⟩
        ⟨dbB.nextId + 1, t.id, .assistant, assistantReply, now⟩
        ⟨t.id, t.name, t.origin, isNew⟩
        ⟨c.id, c.email, c.phone⟩,
       (writeMessages dbB now t.id req.content).2.2) := by
  unfold sendMessageToAgent
  simp only [hv, Bool.true_eq_false, if_false, hA, hC, hT, writeMessages]

theorem send_sent_inv {db : DB} {now : Nat} {req : SendReq}
    {um am : MsgOut} {th : ThreadOut} {ct : ContactOut} {db' : DB}
    (h : sendMessageToAgent db now req = (.sent um am th ct, db')) :
    sendToAgentValid req = true ∧
    ∃ a c dbA t isNew dbB,
      db.agents.find? (fun x => x.id == req.agentId) = some a ∧
      findOrCreateContact db now req = (c, dbA) ∧
      findOrCreateThread dbA now req c.id = (t, isNew, dbB) ∧
      um = ⟨dbB.nextId, t.id, .user, req.content, now⟩ ∧
      am = ⟨dbB.nextId + 1, t.id, .assistant, assistantReply, now⟩ ∧
      th = ⟨t.id, t.name, t.origin, isNew⟩ ∧
      ct = ⟨c.id, c.email, c.phone⟩ ∧
      db' = (writeMessages dbB now t.id req.content).2.2 := by
  have hv : sendToAgentValid req = true := by
    cases hb : sendToAgentValid req
    · unfold sendMessageToAgent at h
      rw [if_pos hb] at h
      simp at h
    · rfl
  refine ⟨hv, ?_⟩
  cases hA : db.agents.find? (fun x => x.id == req.agentId) with
  | none =>
    unfold sendMessageToAgent at h
    rw [if_neg (by simp [hv]), hA] at h
    simp at h
  | some a =>
    unfold sendMessageToAgent at h
    rw [if_neg (by simp [hv]), hA] at h
    simp only [Prod.mk.injEq, SendOutcome.sent.injEq] at h
    obtain ⟨⟨h1, h2, h3, h4⟩, h5⟩ := h
    exact ⟨a, _, _, _, _, _, rfl, rfl, rfl, h1.symm, h2.symm, h3.symm, h4.symm,
      h5.symm⟩

theorem threadMatches_false_mono {r1 r2 : SendReq} {cid t1 t2 : Nat}
    {u : Thread}
    (hag : r2.agentId = r1.agentId) (hor : r2.origin = r1.origin)
    (h12 : t1 ≤ t2) (hfu : threadMatches r1 cid t1 u = false) :
    threadMatches r2 cid t2 u = false := by
  rw [Bool.eq_false_iff] at hfu ⊢
  intro hcontra
  apply hfu
  simp only [threadMatches, Bool.and_eq_true, beq_iff_eq,
    decide_eq_true_eq] at hcontra ⊢
  obtain ⟨⟨⟨a1, a2⟩, a3⟩, a4⟩ := hcontra
  refine ⟨⟨⟨a1, ?_⟩, ?_⟩, ?_⟩
  · rw [← hag]; exact a2
  · rw [← hor]; exact a3
  · omega

/-! ## Claim C1 -/

/-- C1: the claim says that registering a user and then logging in with
the same email and password returns 200 with a valid token.  On the code
this fails: `UserSchema` (src/models/User.ts) stores no password and
registers no `comparePassword` method, so after a successful 201
registration the login handler's `user.comparePassword(...)` call throws
and every login with an existing email answers 500 'Internal server
error', never 200. -/
theorem c1_login_always_500 :
    registerStatus
      (createUser DB.empty 9 0 ⟨"Jane Doe", "jane@x.com", "secret1"⟩).1 = 201 ∧
    (createUser DB.empty 9 0 ⟨"Jane Doe", "jane@x.com", "secret1"⟩).1 =
      .createdUser ⟨1, "Jane Doe", "jane@x.com"⟩ (.signed ⟨1, "jane@x.com"⟩ 0 9) ∧
    login (createUser DB.empty 9 0 ⟨"Jane Doe", "jane@x.com", "secret1"⟩).2 9 1000
      "jane@x.com" "secret1" = .internalError ∧
    loginStatus LoginResult.internalError = 500 := by
  decide

/-! ## Claim C5 -/

/-- C5 counterexample: a token older than the 7-day lifetime is rejected
by the Access Guard with HTTP status 403 ('Invalid or expired token'),
not 401 as the claim states. -/
theorem c5_expired_token_status_403 :
    verifyToken 5 (sevenDaysMs + 1) (.signed ⟨1, "jane@x.com"⟩ 0 5) = none ∧
    0 + sevenDaysMs < sevenDaysMs + 1 ∧
    authenticateToken DB.empty 5 (sevenDaysMs + 1)
      (some (.signed ⟨1, "jane@x.com"⟩ 0 5)) = .invalidToken ∧
    authHttpStatus AuthResult.invalidToken = some 403 ∧
    authHttpStatus AuthResult.invalidToken ≠ some 401 := by
  decide

/-- C5 amended: for every bearer token that is malformed, carries a bad
signature, or is expired, `authenticateToken` rejects the request with
one identical response for all three kinds — the `invalidToken` outcome
with HTTP status 403 and message 'Invalid or expired token' (the 401
responses are reserved for a missing token and for a subject that no
longer exists). -/
theorem c5_invalid_token_uniform_403 (db : DB) (secret now : Nat)
    (p : JwtPayload) (iat sig : Nat) :
    authenticateToken db secret now (some .malformed) = .invalidToken ∧
    (sig ≠ secret →
      authenticateToken db secret now (some (.signed p iat sig)) = .invalidToken) ∧
    (iat + sevenDaysMs < now →
      authenticateToken db secret now (some (.signed p iat secret)) = .invalidToken) ∧
    authHttpStatus AuthResult.invalidToken = some 403 := by
  refine ⟨rfl, ?_, ?_, rfl⟩
  · intro hsig
    simp [authenticateToken, verifyToken, hsig]
  · intro hexp
    simp [authenticateToken, verifyToken, hexp]

/-- C5 witness: the uniform 403 rejection evaluated on a concretely
bad-signature token, a concretely expired token, and a malformed one. -/
theorem c5_invalid_token_uniform_403_witness :
    authenticateToken DB.empty 5 9 (some (.signed ⟨1, "a@b.c"⟩ 0 4)) =
      .invalidToken ∧
    authenticateToken DB.empty 5 (sevenDaysMs + 2)
      (some (.signed ⟨1, "a@b.c"⟩ 1 5)) = .invalidToken ∧
    authenticateToken DB.empty 5 9 (some .malformed) = .invalidToken :=
  ⟨(c5_invalid_token_uniform_403 DB.empty 5 9 ⟨1, "a@b.c"⟩ 0 4).2.1 (by decide),
   (c5_invalid_token_uniform_403 DB.empty 5 (sevenDaysMs + 2) ⟨1, "a@b.c"⟩ 1 4).2.2.1
     (by decide),
   (c5_invalid_token_uniform_403 DB.empty 5 9 ⟨1, "a@b.c"⟩ 0 4).1⟩

/-! ## Claim C6 -/

/-- C6: a company fetch, update or delete whose target is owned by a
different user answers exactly the `notFoundOrDenied` outcome (HTTP 404),
mutates nothing, and is indistinguishable from requesting an id that
exists in no store at all. -/
theorem c6_cross_tenant_company_not_found (db db2 : DB) (userId id : Nat)
    (u : CompanyUpdate)
    (hOwn : ∀ c ∈ db.companies, c.id = id → c.userId ≠ userId)
    (hAbsent : ∀ c ∈ db2.companies, c.id ≠ id) :
    getCompanyById db userId id = .notFoundOrDenied ∧
    updateCompany db userId id u = (.notFoundOrDenied, db) ∧
    deleteCompany db userId id = (.notFoundOrDenied, db) ∧
    getCompanyById db2 userId id = getCompanyById db userId id ∧
    (updateCompany db2 userId id u).1 = (updateCompany db userId id u).1 ∧
    (deleteCompany db2 userId id).1 = (deleteCompany db userId id).1 ∧
    companyStatus CompanyResult.notFoundOrDenied = 404 := by
  have hf : db.companies.find? (companyOwnedQuery userId id) = none := by
    rw [List.find?_eq_none]
    intro c hc
    simp only [companyOwnedQuery, Bool.and_eq_true, beq_iff_eq]
    rintro ⟨h1, h2⟩
    exact hOwn c hc h1 h2
  have hf2 : db2.companies.find? (companyOwnedQuery userId id) = none := by
    rw [List.find?_eq_none]
    intro c hc
    simp only [companyOwnedQuery, Bool.and_eq_true, beq_iff_eq]
    rintro ⟨h1, h2⟩
    exact hAbsent c hc h1
  refine ⟨?_, ?_, ?_, ?_, ?_, ?_, rfl⟩ <;>
    simp [getCompanyById, updateCompany, deleteCompany, hf, hf2]

/-- C6 witness: user 1 requesting company 10, which is owned by user 2,
against an otherwise empty second store. -/
theorem c6_cross_tenant_company_not_found_witness :
    getCompanyById otherOwnerDb 1 10 = .notFoundOrDenied ∧
    updateCompany otherOwnerDb 1 10 noChange = (.notFoundOrDenied, otherOwnerDb) ∧
    deleteCompany otherOwnerDb 1 10 = (.notFoundOrDenied, otherOwnerDb) ∧
    getCompanyById DB.empty 1 10 = getCompanyById otherOwnerDb 1 10 ∧
    (updateCompany DB.empty 1 10 noChange).1 =
      (updateCompany otherOwnerDb 1 10 noChange).1 ∧
    (deleteCompany DB.empty 1 10).1 = (deleteCompany otherOwnerDb 1 10).1 ∧
    companyStatus CompanyResult.notFoundOrDenied = 404 :=
  c6_cross_tenant_company_not_found otherOwnerDb DB.empty 1 10 noChange
    (by decide) (by decide)

/-! ## Claim C7 -/

/-- C7: an agent-creation request naming a company that the caller does
not own (or that does not exist) is rejected with the 403
'Company not found or access denied' response before any write: the
store is returned unchanged, so no Agent record is created. -/
theorem c7_create_agent_unowned_company (db : DB) (userId : Nat)
    (name description : String) (companyId : Nat)
    (hval : agentInputValid name description = true)
    (hOwn : ∀ c ∈ db.companies, c.id = companyId → c.userId ≠ userId) :
    createAgent db userId name description companyId = (.companyNotOwned, db) ∧
    createAgentStatus CreateAgentResult.companyNotOwned = 403 := by
  have hf : db.companies.find?
      (fun c => c.id == companyId && c.userId == userId) = none := by
    rw [List.find?_eq_none]
    intro c hc
    simp only [Bool.and_eq_true, beq_iff_eq]
    rintro ⟨h1, h2⟩
    exact hOwn c hc h1 h2
  refine ⟨?_, rfl⟩
  simp [createAgent, hval, hf]

/-- C7 witness: user 1 creating an agent under company 10, which is
owned by user 2. -/
theorem c7_create_agent_unowned_company_witness :
    createAgent otherOwnerDb 1 "Support Agent" "Handles support well" 10 =
      (.companyNotOwned, otherOwnerDb) ∧
    createAgentStatus CreateAgentResult.companyNotOwned = 403 :=
  c7_create_agent_unowned_company otherOwnerDb 1 "Support Agent"
    "Handles support well" 10 (by decide) (by decide)

/-! ## Claim C10 -/

/-- C10: `getAgents` answers identically for any two authenticated
callers (no ownership of the named company is checked), the result for a
present `companyId` is exactly the agents of that company — whoever owns
it — and an omitted `companyId` degenerates the filter so that every
stored agent is returned. -/
theorem c10_get_agents_ignores_ownership (db : DB) (u1 u2 : Nat)
    (copt : Option Nat) (cid : Nat) (a : Agent) :
    getAgents db (some u1) copt = getAgents db (some u2) copt ∧
    getAgents db (some u1) (some cid) =
      .ok (db.agents.filter (fun x => x.companyId == cid)) ∧
    (a ∈ db.agents.filter (fun x => x.companyId == cid) ↔
      a ∈ db.agents ∧ a.companyId = cid) ∧
    getAgents db (some u1) none = .ok db.agents := by
  refine ⟨?_, rfl, ?_, rfl⟩
  · cases copt <;> rfl
  · simp [List.mem_filter]

/-! ## Claim C9 -/

/-- C9: `sendMessageToAgent` receives no caller identity at all (the
definition takes only the store, the clock and the request), so for any
authenticated caller the sole agent-related precondition is existence:
when `Agent.findById` misses, the response is the 404 'Agent not found'
and nothing is written; when the agent exists — under any ownership
configuration whatsoever, since `db` is arbitrary — a valid request
answers 201. -/
theorem c9_agent_existence_only_precondition (db : DB) (now : Nat)
    (req : SendReq) (hv : sendToAgentValid req = true) :
    (db.agents.find? (fun a => a.id == req.agentId) = none →
      sendMessageToAgent db now req = (.agentNotFound, db) ∧
      sendStatus SendOutcome.agentNotFound = 404) ∧
    (∀ a, db.agents.find? (fun x => x.id == req.agentId) = some a →
      ∃ um am th ct db',
        sendMessageToAgent db now req = (.sent um am th ct, db') ∧
        sendStatus (.sent um am th ct) = 201) := by
  constructor
  · intro hA
    refine ⟨?_, rfl⟩
    unfold sendMessageToAgent
    rw [if_neg (by simp [hv]), hA]
  · intro a hA
    exact ⟨_, _, _, _, _, send_sent_build hv hA rfl rfl, rfl⟩

/-- C9 witness: the fresh store owns no company at all (its only agent
points at the nonexistent company 7), yet the send succeeds; and a
request for the absent agent 99 is the 404. -/
theorem c9_agent_existence_only_precondition_witness :
    (∃ um am th ct db',
      sendMessageToAgent freshAgentDb 1000 waReq = (.sent um am th ct, db') ∧
      sendStatus (.sent um am th ct) = 201) ∧
    sendMessageToAgent freshAgentDb 1000 { waReq with agentId := 99 } =
      (.agentNotFound, freshAgentDb) ∧
    sendStatus SendOutcome.agentNotFound = 404 :=
  ⟨(c9_agent_existence_only_precondition freshAgentDb 1000 waReq
      (by decide)).2 ⟨1, "Support Agent", "Handles support", 7⟩ (by decide),
   (c9_agent_existence_only_precondition freshAgentDb 1000
      { waReq with agentId := 99 } (by decide)).1 (by decide)⟩

/-! ## Claim C8 -/

/-- C8: whenever the send-to-agent flow reaches its message-writing step
(that is, whenever it answers 201), exactly two messages are appended to
the store — first one with role user carrying the request content, then
unconditionally one with role assistant carrying the fixed canned reply,
both on the resolved thread — and the response carries both messages
with those roles on that thread. -/
theorem c8_two_messages_written (db : DB) (now : Nat) (req : SendReq)
    (um am : MsgOut) (th : ThreadOut) (ct : ContactOut) (db' : DB)
    (h : sendMessageToAgent db now req = (.sent um am th ct, db')) :
    um.role = .user ∧ um.content = req.content ∧ um.threadId = th.id ∧
    am.role = .assistant ∧ am.content = assistantReply ∧ am.threadId = th.id ∧
    (∃ m1 m2 : Message,
      db'.messages = db.messages ++ [m1, m2] ∧
      m1.role = .user ∧ m1.content = req.content ∧ m1.threadId = th.id ∧
      m2.role = .assistant ∧ m2.content = assistantReply ∧
      m2.threadId = th.id) ∧
    sendStatus (SendOutcome.sent um am th ct) = 201 := by
  obtain ⟨hv, a, c, dbA, t, isNew, dbB, hA, hC, hT, hum, ham, hth, hct, hdb⟩ :=
    send_sent_inv h
  subst hum
  subst ham
  subst hth
  subst hct
  subst hdb
  obtain ⟨-, -, -, -, hcm⟩ := findOrCreateContact_frame hC
  obtain ⟨-, -, -, -, htm⟩ := findOrCreateThread_frame hT
  obtain ⟨-, -, hw3⟩ := writeMessages_spec dbB now t.id req.content
  refine ⟨rfl, rfl, rfl, rfl, rfl, rfl,
    ⟨⟨dbB.nextId, t.id, .user, req.content, now⟩,
     ⟨dbB.nextId + 1, t.id, .assistant, assistantReply, now⟩,
     ?_, rfl, rfl, rfl, rfl, rfl, rfl⟩, rfl⟩
  rw [hw3]
  show dbB.messages ++ _ = db.messages ++ _
  rw [htm, hcm]

/-- C8 witness: the concrete fresh-store send appends exactly the user
message and the canned assistant reply. -/
theorem c8_two_messages_written_witness :
    (⟨6, 5, Role.user, "hello there", 1000⟩ : MsgOut).role = .user ∧
    (⟨6, 5, Role.user, "hello there", 1000⟩ : MsgOut).content = waReq.content ∧
    (⟨6, 5, Role.user, "hello there", 1000⟩ : MsgOut).threadId =
      (⟨5, "hello there", Origin.whatsapp, true⟩ : ThreadOut).id ∧
    (⟨7, 5, Role.assistant, assistantReply, 1000⟩ : MsgOut).role = .assistant ∧
    (⟨7, 5, Role.assistant, assistantReply, 1000⟩ : MsgOut).content =
      assistantReply ∧
    (⟨7, 5, Role.assistant, assistantReply, 1000⟩ : MsgOut).threadId =
      (⟨5, "hello there", Origin.whatsapp, true⟩ : ThreadOut).id ∧
    (∃ m1 m2 : Message,
      (sendMessageToAgent freshAgentDb 1000 waReq).2.messages =
        freshAgentDb.messages ++ [m1, m2] ∧
      m1.role = .user ∧ m1.content = waReq.content ∧
      m1.threadId = (⟨5, "hello there", Origin.whatsapp, true⟩ : ThreadOut).id ∧
      m2.role = .assistant ∧ m2.content = assistantReply ∧
      m2.threadId =
        (⟨5, "hello there", Origin.whatsapp, true⟩ : ThreadOut).id) ∧
    sendStatus (SendOutcome.sent ⟨6, 5, Role.user, "hello there", 1000⟩
      ⟨7, 5, Role.assistant, assistantReply, 1000⟩
      ⟨5, "hello there", Origin.whatsapp, true⟩
      ⟨4, none, some "5511999"⟩) = 201 :=
  c8_two_messages_written freshAgentDb 1000 waReq
    ⟨6, 5, Role.user, "hello there", 1000⟩
    ⟨7, 5, Role.assistant, assistantReply, 1000⟩
    ⟨5, "hello there", Origin.whatsapp, true⟩
    ⟨4, none, some "5511999"⟩
    (sendMessageToAgent freshAgentDb 1000 waReq).2
    (by decide)

/-! ## Claim C3 -/

/-- C3: the contact-resolution step queries by exactly one key — the
result is invariant under the other field (email for whatsapp, phone
otherwise) — reuses the first stored match, and otherwise creates a
contact named after the phone (whatsapp: phone set, email null) or after
the email's local part (other origins: email set, phone null), with '-'
when that local part is empty or the email absent. -/
theorem c3_contact_resolution (db : DB) (now : Nat) (req : SendReq) :
    (req.origin = .whatsapp →
      (∀ e, findOrCreateContact db now { req with email := e } =
        findOrCreateContact db now req) ∧
      (db.contacts.find? (contactMatches req) = none →
        findOrCreateContact db now req =
          (newContactFor db now req,
           { db with contacts := db.contacts ++ [newContactFor db now req],
                     nextId := db.nextId + 1 }) ∧
        (newContactFor db now req).name = req.phone ∧
        (newContactFor db now req).phone = req.phone ∧
        (newContactFor db now req).email = none)) ∧
    (req.origin ≠ .whatsapp →
      (∀ p, findOrCreateContact db now { req with phone := p } =
        findOrCreateContact db now req) ∧
      (db.contacts.find? (contactMatches req) = none →
        findOrCreateContact db now req =
          (newContactFor db now req,
           { db with contacts := db.contacts ++ [newContactFor db now req],
                     nextId := db.nextId + 1 }) ∧
        (newContactFor db now req).name =
          some (contactNameFromEmail req.email) ∧
        (newContactFor db now req).email = req.email ∧
        (newContactFor db now req).phone = none)) ∧
    (∀ l1 c l2, db.contacts = l1 ++ c :: l2 →
      (∀ x ∈ l1, contactMatches req x = false) →
      contactMatches req c = true →
      findOrCreateContact db now req = (c, db)) ∧
    (∀ e : String, emailLocalPart e = "" →
      contactNameFromEmail (some e) = "-") ∧
    (∀ e : String, emailLocalPart e ≠ "" →
      contactNameFromEmail (some e) = emailLocalPart e) := by
  refine ⟨?_, ?_, ?_, ?_, ?_⟩
  · intro hw
    constructor
    · intro e
      have hm : contactMatches { req with email := e } = contactMatches req := by
        funext x
        simp [contactMatches, hw]
      have hn : newContactFor db now { req with email := e } =
          newContactFor db now req := by
        simp [newContactFor, hw]
      unfold findOrCreateContact
      rw [hm, hn]
    · intro hnone
      exact ⟨findOrCreateContact_create hnone, by simp [newContactFor, hw],
        by simp [newContactFor, hw], by simp [newContactFor, hw]⟩
  · intro hw
    constructor
    · intro p
      have hm : contactMatches { req with phone := p } = contactMatches req := by
        funext x
        simp [contactMatches, hw]
      have hn : newContactFor db now { req with phone := p } =
          newContactFor db now req := by
        simp [newContactFor, hw]
      unfold findOrCreateContact
      rw [hm, hn]
    · intro hnone
      exact ⟨findOrCreateContact_create hnone, by simp [newContactFor, hw],
        by simp [newContactFor, hw], by simp [newContactFor, hw]⟩
  · intro l1 c l2 hdec h1 hc
    apply findOrCreateContact_found
    rw [hdec]
    exact find?_first h1 hc
  · intro e he
    simp [contactNameFromEmail, he]
  · intro e he
    simp [contactNameFromEmail, he]

/-- C3 witness: the whatsapp branch evaluated on the fresh store — the
created contact is named after the phone, carries the phone and a null
email — plus the first-match reuse on the window-edge store and the '-'
fallback for an unparsable email. -/
theorem c3_contact_resolution_witness :
    (findOrCreateContact freshAgentDb 1000 waReq =
      (newContactFor freshAgentDb 1000 waReq,
       { freshAgentDb with
         contacts := freshAgentDb.contacts ++ [newContactFor freshAgentDb 1000 waReq],
         nextId := freshAgentDb.nextId + 1 }) ∧
     (newContactFor freshAgentDb 1000 waReq).name = waReq.phone ∧
     (newContactFor freshAgentDb 1000 waReq).phone = waReq.phone ∧
     (newContactFor freshAgentDb 1000 waReq).email = none) ∧
    findOrCreateContact windowEdgeDb 1000 waReq =
      (⟨2, some "5511999", none, some "5511999", 0⟩, windowEdgeDb) ∧
    contactNameFromEmail (some "@x.com") = "-" :=
  ⟨((c3_contact_resolution freshAgentDb 1000 waReq).1 rfl).2 (by decide),
   (c3_contact_resolution windowEdgeDb 1000 waReq).2.2.1 []
     ⟨2, some "5511999", none, some "5511999", 0⟩ [] rfl
     (by intro x hx; cases hx) (by decide),
   (c3_contact_resolution freshAgentDb 1000 waReq).2.2.2.1 "@x.com" (by decide)⟩

/-! ## Claim C4 -/

/-- C4: the thread-resolution step returns, when it reuses, a stored
thread matching (contactId, agentId, origin) exactly, inside the
trailing 24-hour window and no older than any other in-window match; and
when it creates, no in-window match existed, the new thread is named
after the request content with the given contact/agent/origin and the
current timestamp, and it is appended to the store.  The response's
`thread.isNew` is true exactly when the store gained a thread. -/
theorem c4_thread_resolution :
    (∀ (db : DB) (now : Nat) (req : SendReq) (cid : Nat) (t : Thread)
        (isNew : Bool) (db' : DB),
      findOrCreateThread db now req cid = (t, isNew, db') →
      ((isNew = false ∧ t ∈ db.threads ∧ t.contactId = cid ∧
          t.agentId = req.agentId ∧ t.origin = req.origin ∧
          now ≤ t.createdAt + dayMs ∧
          (∀ u ∈ db.threads, u.contactId = cid → u.agentId = req.agentId →
            u.origin = req.origin → now ≤ u.createdAt + dayMs →
            u.createdAt ≤ t.createdAt) ∧
          db' = db) ∨
       (isNew = true ∧
          (∀ u ∈ db.threads, u.contactId = cid → u.agentId = req.agentId →
            u.origin = req.origin → u.createdAt + dayMs < now) ∧
          t.name = req.content ∧ t.contactId = cid ∧ t.agentId = req.agentId ∧
          t.origin = req.origin ∧ t.createdAt = now ∧
          db'.threads = db.threads ++ [t]))) ∧
    (∀ (db : DB) (now : Nat) (req : SendReq) (um am : MsgOut)
        (th : ThreadOut) (ct : ContactOut) (db' : DB),
      sendMessageToAgent db now req = (.sent um am th ct, db') →
      (th.isNew = true ↔ db'.threads.length = db.threads.length + 1)) := by
  constructor
  · intro db now req cid t isNew db' h
    rcases findOrCreateThread_inv h with ⟨hn, hfind, hdb⟩ | ⟨hn, hnone, hteq, hdb⟩
    · left
      obtain ⟨hmem, hmax⟩ := newestThread_spec hfind
      obtain ⟨hmem', hmatch⟩ := List.mem_filter.mp hmem
      simp only [threadMatches, Bool.and_eq_true, beq_iff_eq,
        decide_eq_true_eq] at hmatch
      obtain ⟨⟨⟨m1, m2⟩, m3⟩, m4⟩ := hmatch
      refine ⟨hn, hmem', m1, m2, m3, m4, ?_, hdb⟩
      intro u hu u1 u2 u3 u4
      apply hmax
      rw [List.mem_filter]
      refine ⟨hu, ?_⟩
      simp only [threadMatches, Bool.and_eq_true, beq_iff_eq,
        decide_eq_true_eq]
      exact ⟨⟨⟨u1, u2⟩, u3⟩, u4⟩
    · right
      have hnil := newestThread_eq_none.mp hnone
      subst hteq
      subst hdb
      refine ⟨hn, ?_, rfl, rfl, rfl, rfl, rfl, rfl⟩
      intro u hu u1 u2 u3
      have hfu := List.filter_eq_nil_iff.mp hnil u hu
      by_contra hlt
      apply hfu
      simp only [threadMatches, Bool.and_eq_true, beq_iff_eq,
        decide_eq_true_eq]
      exact ⟨⟨⟨u1, u2⟩, u3⟩, by omega⟩
  · intro db now req um am th ct db' h
    obtain ⟨hv, a, c, dbA, t, isNew, dbB, hA, hC, hT, -, -, hth, -, hdb⟩ :=
      send_sent_inv h
    subst hth
    subst hdb
    have hcth : dbA.threads = db.threads :=
      (findOrCreateContact_frame hC).2.2.2.1
    obtain ⟨-, -, hw3⟩ := writeMessages_spec dbB now t.id req.content
    have hthreads : (writeMessages dbB now t.id req.content).2.2.threads =
        dbB.threads := by rw [hw3]
    show isNew = true ↔ _
    rcases findOrCreateThread_inv hT with ⟨hn, -, hdbB⟩ | ⟨hn, -, -, hdbB⟩
    · subst hn
      subst hdbB
      rw [hthreads, hcth]
      simp only [Bool.false_eq_true, false_iff]
      omega
    · subst hn
      subst hdbB
      rw [hthreads]
      show _ ↔ (dbA.threads ++ [t]).length = db.threads.length + 1
      rw [hcth]
      simp

/-- C4 witness: on the window-edge store at the last in-window instant,
the resolver reuses the stored thread — the left disjunct holds with all
its matching and newest-first facts evaluated. -/
theorem c4_thread_resolution_witness :
    (false = false ∧ edgeThread ∈ windowEdgeDb.threads ∧
      edgeThread.contactId = 2 ∧ edgeThread.agentId = waReq.agentId ∧
      edgeThread.origin = waReq.origin ∧
      86399999 ≤ edgeThread.createdAt + dayMs ∧
      (∀ u ∈ windowEdgeDb.threads, u.contactId = 2 →
        u.agentId = waReq.agentId → u.origin = waReq.origin →
        86399999 ≤ u.createdAt + dayMs →
        u.createdAt ≤ edgeThread.createdAt) ∧
      windowEdgeDb = windowEdgeDb) ∨
    (false = true ∧
      (∀ u ∈ windowEdgeDb.threads, u.contactId = 2 →
        u.agentId = waReq.agentId → u.origin = waReq.origin →
        u.createdAt + dayMs < 86399999) ∧
      edgeThread.name = waReq.content ∧ edgeThread.contactId = 2 ∧
      edgeThread.agentId = waReq.agentId ∧ edgeThread.origin = waReq.origin ∧
      edgeThread.createdAt = 86399999 ∧
      windowEdgeDb.threads = windowEdgeDb.threads ++ [edgeThread]) :=
  c4_thread_resolution.1 windowEdgeDb 86399999 waReq 2 edgeThread false
    windowEdgeDb (by decide)

/-! ## Claim C2 -/

/-- C2 counterexample: on the window-edge store the first send (at
86399999 ms, just inside the stored thread's 24-hour window) succeeds by
reusing thread 3; the second send 2 ms later — within 24 hours of the
first call, with the same phone, agent and origin — does not return the
same thread with `isNew = false`: the shared thread has dropped out of
the sliding window, so a brand-new thread 6 is created with
`isNew = true`. -/
theorem c2_second_call_within_24h_new_thread :
    sendStatus (sendMessageToAgent windowEdgeDb 86399999 waReq).1 = 201 ∧
    (86399999 : Nat) ≤ 86400001 ∧ (86400001 : Nat) ≤ 86399999 + dayMs ∧
    sentThread (sendMessageToAgent windowEdgeDb 86399999 waReq).1 =
      some ⟨3, "oi", .whatsapp, false⟩ ∧
    sentThread (sendMessageToAgent
      (sendMessageToAgent windowEdgeDb 86399999 waReq).2 86400001 waReq).1 =
      some ⟨6, "hello there", .whatsapp, true⟩ ∧
    Option.map ThreadOut.isNew (sentThread (sendMessageToAgent
      (sendMessageToAgent windowEdgeDb 86399999 waReq).2 86400001 waReq).1) =
      some true ∧
    Option.map ThreadOut.id (sentThread (sendMessageToAgent
      (sendMessageToAgent windowEdgeDb 86399999 waReq).2 86400001 waReq).1) ≠
      Option.map ThreadOut.id
        (sentThread (sendMessageToAgent windowEdgeDb 86399999 waReq).1) := by
  decide

/-- C2 amended: when the first whatsapp send CREATED its thread
(`isNew = true` in its response), a second send within 24 hours with the
same phone, agent and origin reuses that very thread (`isNew = false`,
same id), returns the same contact, and leaves the number of contacts
with that phone unchanged.  (As the counterexample shows, the reuse
guarantee does not extend to a first call that itself reused a thread
near the end of its window.) -/
theorem c2_thread_reuse_after_creation
    (db : DB) (t1 t2 : Nat) (r1 r2 : SendReq)
    (um am : MsgOut) (th : ThreadOut) (ct : ContactOut) (db1 : DB)
    (h1 : sendMessageToAgent db t1 r1 = (.sent um am th ct, db1))
    (hnew : th.isNew = true)
    (ho1 : r1.origin = .whatsapp) (ho2 : r2.origin = .whatsapp)
    (hp : r2.phone = r1.phone) (ha : r2.agentId = r1.agentId)
    (hv2 : sendToAgentValid r2 = true)
    (h12 : t1 ≤ t2) (h24 : t2 ≤ t1 + dayMs) :
    ∃ um2 am2 th2 ct2 db2,
      sendMessageToAgent db1 t2 r2 = (.sent um2 am2 th2 ct2, db2) ∧
      th2.id = th.id ∧ th2.isNew = false ∧ ct2 = ct ∧
      countContactsWithPhone db2 r1.phone =
        countContactsWithPhone db1 r1.phone := by
  obtain ⟨hv1, a, c, dbA, t, isNew, dbB, hA, hC, hT, hum, ham, hth, hct, hdb⟩ :=
    send_sent_inv h1
  subst hth
  subst hct
  have hisNew : isNew = true := hnew
  subst hisNew
  rcases findOrCreateThread_inv hT with ⟨hbad, -, -⟩ | ⟨-, hnone, hteq, hdbB⟩
  · exact absurd hbad (by decide)
  have hor : r2.origin = r1.origin := ho2.trans ho1.symm
  obtain ⟨-, -, hcag, hcth, -⟩ := findOrCreateContact_frame hC
  obtain ⟨-, -, htag, htct, -⟩ := findOrCreateThread_frame hT
  obtain ⟨-, -, hw3⟩ := writeMessages_spec dbB t1 t.id r1.content
  have hdb1agents : db1.agents = db.agents := by
    rw [hdb, hw3]
    show dbB.agents = db.agents
    rw [htag, hcag]
  have hdb1contacts : db1.contacts = dbA.contacts := by
    rw [hdb, hw3]
    show dbB.contacts = dbA.contacts
    exact htct
  have hdb1threads : db1.threads = dbA.threads ++ [t] := by
    rw [hdb, hw3]
    show dbB.threads = dbA.threads ++ [t]
    rw [hdbB]
  have hA2 : db1.agents.find? (fun x => x.id == r2.agentId) = some a := by
    rw [hdb1agents, ha]
    exact hA
  have hmEq : contactMatches r2 = contactMatches r1 := by
    funext x
    simp [contactMatches, ho1, ho2, hp]
  have hfind2 : db1.contacts.find? (contactMatches r2) = some c := by
    rw [hmEq, hdb1contacts]
    rcases findOrCreateContact_inv hC with ⟨hfind, hdbA⟩ | ⟨hfind, hceq, hdbA⟩
    · rw [hdbA]
      exact hfind
    · rw [hdbA]
      show (db.contacts ++ [c]).find? (contactMatches r1) = some c
      rw [find?_append_of_none hfind]
      have hcm1 : contactMatches r1 c = true := by
        subst hceq
        simp [contactMatches, newContactFor, ho1]
      exact List.find?_cons_of_pos _ hcm1
  have hC2 : findOrCreateContact db1 t2 r2 = (c, db1) :=
    findOrCreateContact_found hfind2
  have hfilterA : dbA.threads.filter (threadMatches r2 c.id t2) = [] := by
    rw [List.filter_eq_nil_iff]
    intro u hu
    have hfu : threadMatches r1 c.id t1 u = false := by
      have hnil := newestThread_eq_none.mp hnone
      have hnotu := List.filter_eq_nil_iff.mp hnil u hu
      cases hb : threadMatches r1 c.id t1 u
      · rfl
      · exact absurd hb hnotu
    have hres := threadMatches_false_mono ha hor h12 hfu
    simp [hres]
  have htmatch : threadMatches r2 c.id t2 t = true := by
    subst hteq
    simp [threadMatches, newThreadFor, ha.symm, hor.symm, h24]
  have hT2 : findOrCreateThread db1 t2 r2 c.id = (t, false, db1) := by
    apply findOrCreateThread_found
    rw [hdb1threads, List.filter_append, hfilterA]
    simp [List.filter, htmatch, newestThread, newerOf]
  refine ⟨_, _, _, _, _, send_sent_build hv2 hA2 hC2 hT2, rfl, rfl, rfl, ?_⟩
  have hcdb2 : (writeMessages db1 t2 t.id r2.content).2.2.contacts =
      db1.contacts := by
    rw [(writeMessages_spec db1 t2 t.id r2.content).2.2]
  unfold countContactsWithPhone
  rw [hcdb2]

/-- C2 witness: on the fresh store the first send creates thread 5
(`isNew = true`); the second send 1 second later reuses it with
`isNew = false`, the same contact, and no new contact with that
phone. -/
theorem c2_thread_reuse_after_creation_witness :
    ∃ um2 am2 th2 ct2 db2,
      sendMessageToAgent (sendMessageToAgent freshAgentDb 1000 waReq).2
        2000 waReq = (.sent um2 am2 th2 ct2, db2) ∧
      th2.id = (⟨5, "hello there", Origin.whatsapp, true⟩ : ThreadOut).id ∧
      th2.isNew = false ∧
      ct2 = (⟨4, none, some "5511999"⟩ : ContactOut) ∧
      countContactsWithPhone db2 waReq.phone =
        countContactsWithPhone (sendMessageToAgent freshAgentDb 1000 waReq).2
          waReq.phone := by
  have hfst : (sendMessageToAgent freshAgentDb 1000 waReq).1 =
      .sent ⟨6, 5, .user, "hello there", 1000⟩
        ⟨7, 5, .assistant, assistantReply, 1000⟩
        ⟨5, "hello there", .whatsapp, true⟩
        ⟨4, none, some "5511999"⟩ := by decide
  have h1 : sendMessageToAgent freshAgentDb 1000 waReq =
      (.sent ⟨6, 5, .user, "hello there", 1000⟩
        ⟨7, 5, .assistant, assistantReply, 1000⟩
        ⟨5, "hello there", .whatsapp, true⟩
        ⟨4, none, some "5511999"⟩,
       (sendMessageToAgent freshAgentDb 1000 waReq).2) := by
    rw [← hfst]
  exact c2_thread_reuse_after_creation freshAgentDb 1000 2000 waReq waReq
    _ _ _ _ _ h1 rfl rfl rfl rfl rfl (by decide) (by decide) (by decide)

end Lmapi
